import Mathlib

/-!
Verification development for the cart/checkout/API layer of the
`frontend-ecommerce` storefront.

The definitions below are a shallow embedding of the JavaScript source:

* `src/js/cart.js`      — `CartService` (local cart cache, backend merge,
  pre-checkout validation);
* `src/js/checkout.js`  — `CheckoutService` (shipping/totals computation,
  checkout validation, order creation);
* the API service file (`APIService`: response classification, retry with
  exponential backoff, guest-session handling, cart merge on login);
* the checkout page script (`handleCheckoutSubmit` / `redirectToPayFast`);
* `src/js/login.js`     — `handleLogin` (login followed by guest-cart merge).

JavaScript mutation is modelled by explicit state passing (functions from a
cart to a new cart), thrown `Error` values by `Except`, and `try`/`catch`
wrappers by total functions that map the error case to the JS return value.
Prices and money amounts are `Rat`; quantities and stock counts are `Int`.
-/

/-- A cart line as stored by `CartService` (`cart.js`).  `idField` models the
optional `id` property carried by backend-supplied items (`findCartItem`
matches on `productId === x || id === x`); items created locally by
`addToCart` have `idField = none`.  `stock = none` models JS `undefined`. -/
structure CartItem where
  productId : Nat
  idField : Option Nat
  name : String
  price : Rat
  salePrice : Option Rat
  quantity : Int
  stock : Option Int
  deriving Repr, DecidableEq

/-- A product as passed to `CartService.addToCart` (`cart.js` line 70). -/
structure Product where
  id : Nat
  name : String
  price : Rat
  salePrice : Option Rat
  stock : Option Int
  deriving Repr, DecidableEq

/-- The `Error` values thrown inside `CartService` operations, keyed by the
throw sites in `cart.js`:
`invalidQuantity` ↦ "Quantity must be at least 1",
`insufficientStock s` ↦ "Only s items available in stock" /
"Cannot add more. Only s items available in stock",
`itemNotFound` ↦ "Item not found in cart". -/
inductive CartError where
  | invalidQuantity
  | insufficientStock (available : Int)
  | itemNotFound
  deriving Repr, DecidableEq

/-- The predicate used by `CartService.findCartItem` (`cart.js` line 63):
`item.productId === productId || item.id === productId`. -/
def matchesId (item : CartItem) (pid : Nat) : Bool :=
  item.productId == pid || item.idField == some pid

/-- `CartService.findCartItem` (`cart.js` lines 63–65). -/
def findCartItem (cart : List CartItem) (pid : Nat) : Option CartItem :=
  cart.find? (fun item => matchesId item pid)

/-- Number of cart lines matching a product id (used to state uniqueness). -/
def countMatches (cart : List CartItem) (pid : Nat) : Nat :=
  cart.countP (fun item => matchesId item pid)

/-- `item.quantity = quantity` on the first match found by `findCartItem`,
as performed by `CartService.updateQuantity` (`cart.js` line 142). -/
def setQuantityFirst : List CartItem → Nat → Int → List CartItem
  | [], _, _ => []
  | item :: rest, pid, q =>
    if matchesId item pid then { item with quantity := q } :: rest
    else item :: setQuantityFirst rest pid q

/-- The cart line literal pushed by `CartService.addToCart`
(`cart.js` lines 97–106). -/
def mkCartItem (p : Product) (q : Int) : CartItem :=
  { productId := p.id, idField := none, name := p.name, price := p.price,
    salePrice := p.salePrice, quantity := q, stock := p.stock }

/-- `CartService.syncWithBackend` (`cart.js` lines 219–239): the surrounding
`try`/`catch`/`finally` logs a failed cart push and rethrows nothing, so the
operation never raises regardless of the network outcome `syncRes`. -/
def syncWithBackend (syncRes : Except String Unit) : Except CartError Unit :=
  match syncRes with
  | .ok _ => .ok ()
  | .error _ => .ok ()

/-- Body of `CartService.removeFromCart` (`cart.js` lines 159–182) before its
`try`/`catch`: find the index of the first match, splice it out, sync. -/
def removeFromCartE (cart : List CartItem) (pid : Nat)
    (syncRes : Except String Unit) : Except CartError (Bool × List CartItem) :=
  match cart.findIdx? (fun item => matchesId item pid) with
  | none => .error .itemNotFound
  | some i => do
    let cart' := cart.eraseIdx i
    let _ ← syncWithBackend syncRes
    return (true, cart')

/-- `CartService.removeFromCart` with its `catch` block: a thrown error is
reported via notification and the call returns `false`, cart untouched. -/
def removeFromCart (cart : List CartItem) (pid : Nat)
    (syncRes : Except String Unit) : Bool × List CartItem :=
  match removeFromCartE cart pid syncRes with
  | .ok r => r
  | .error _ => (false, cart)

/-- Body of `CartService.updateQuantity` (`cart.js` lines 126–154) before its
`try`/`catch`: `quantity < 1` delegates to `removeFromCart` (which catches its
own errors), a missing item throws, a quantity above the cached `item.stock`
throws, otherwise the quantity is updated in place and the cart synced. -/
def updateQuantityE (cart : List CartItem) (pid : Nat) (q : Int)
    (syncRes : Except String Unit) : Except CartError (Bool × List CartItem) :=
  if q < 1 then .ok (removeFromCart cart pid syncRes)
  else
    match findCartItem cart pid with
    | none => .error .itemNotFound
    | some item =>
      match item.stock with
      | some s =>
        if s < q then .error (.insufficientStock s)
        else do
          let cart' := setQuantityFirst cart pid q
          let _ ← syncWithBackend syncRes
          return (true, cart')
      | none => do
        let cart' := setQuantityFirst cart pid q
        let _ ← syncWithBackend syncRes
        return (true, cart')

/-- `CartService.updateQuantity` with its `catch` block. -/
def updateQuantity (cart : List CartItem) (pid : Nat) (q : Int)
    (syncRes : Except String Unit) : Bool × List CartItem :=
  match updateQuantityE cart pid q syncRes with
  | .ok r => r
  | .error _ => (false, cart)

/-- The guard `product.stock !== undefined && product.stock < q`
(`cart.js` lines 78 and 90). -/
def stockBlocks (stock : Option Int) (q : Int) : Bool :=
  match stock with
  | some s => decide (s < q)
  | none => false

/-- Body of `CartService.addToCart` (`cart.js` lines 70–121) before its
`try`/`catch`: validate the quantity, check the product stock, then either
increment an existing line via `updateQuantity` (after re-checking stock
against the combined quantity) or push a new line and sync. -/
def addToCartE (cart : List CartItem) (p : Product) (q : Int)
    (syncRes : Except String Unit) : Except CartError (Bool × List CartItem) :=
  if q < 1 then .error .invalidQuantity
  else if stockBlocks p.stock q then .error (.insufficientStock (p.stock.getD 0))
  else
    match findCartItem cart p.id with
    | some existing =>
      let newQuantity := existing.quantity + q
      if stockBlocks p.stock newQuantity then
        .error (.insufficientStock (p.stock.getD 0))
      else
        .ok (updateQuantity cart existing.productId newQuantity syncRes)
    | none => do
      let cart' := cart ++ [mkCartItem p q]
      let _ ← syncWithBackend syncRes
      return (true, cart')

/-- `CartService.addToCart` with its `catch` block. -/
def addToCart (cart : List CartItem) (p : Product) (q : Int)
    (syncRes : Except String Unit) : Bool × List CartItem :=
  match addToCartE cart p q syncRes with
  | .ok r => r
  | .error _ => (false, cart)

/-- `CartService.clearCart` (`cart.js` lines 187–195). -/
def clearCart (_cart : List CartItem) (_syncRes : Except String Unit) :
    List CartItem :=
  []

/-- One step of the merge loop in `CartService.loadFromBackend`
(`cart.js` lines 253–260): a backend item overwrites the quantity of the first
matching local line, or is appended when no line matches. -/
def mergeOne (cart : List CartItem) (b : CartItem) : List CartItem :=
  match findCartItem cart b.productId with
  | some _ => setQuantityFirst cart b.productId b.quantity
  | none => cart ++ [b]

/-- The merge performed by `CartService.loadFromBackend`
(`cart.js` lines 244–267) on a successfully fetched backend cart
(`backendCart.forEach(...)` mutating `this.cart`). -/
def loadFromBackend (cart : List CartItem) (backendCart : List CartItem) :
    List CartItem :=
  backendCart.foldl mergeOne cart

/-- The issue strings produced by `CartService.validateCart` and by the
spec's `validateBeforeCheckout`:
`emptyCart` ↦ "Your cart is empty",
`invalidQuantity name` ↦ "Invalid quantity for name",
`insufficientStockFor name s` ↦ "name - Only s items available",
`outOfStock name` (spec taxonomy `OutOfStock`) ↦ "name is out of stock". -/
inductive CartIssue where
  | emptyCart
  | invalidQuantity (name : String)
  | insufficientStockFor (name : String) (available : Int)
  | outOfStock (name : String)
  deriving Repr, DecidableEq

/-- Per-item checks of `CartService.validateCart` (`cart.js` lines 281–291):
the quantity check then the stock check against the *cached* `item.stock`
(the source comments "would need to fetch latest from backend"). -/
def itemIssues (item : CartItem) : List CartIssue :=
  (if item.quantity < 1 then [.invalidQuantity item.name] else []) ++
    (match item.stock with
     | some s =>
       if s < item.quantity then [.insufficientStockFor item.name s] else []
     | none => [])

/-- `CartService.validateCart` (`cart.js` lines 272–297); first component is
`isValid` (`errors.length === 0`). -/
def validateCart (cart : List CartItem) : Bool × List CartIssue :=
  if cart.isEmpty then (false, [.emptyCart])
  else
    let errors := (cart.map itemIssues).flatten
    (errors.isEmpty, errors)

/-- Modelled from the spec: `validateBeforeCheckout()` as specified in §4.3,
which "re-fetches authoritative stock/availability per item" (`fetchStock`
gives the authoritative count per product id) and returns `OutOfStock` /
`InsufficientStock` issues.  This definition follows the spec's words and is
compared with `validateCart`, the code's actual pre-checkout validation,
which only reads the cached `item.stock`. -/
def validateBeforeCheckoutSpec (cart : List CartItem)
    (fetchStock : Nat → Int) : Bool × List CartIssue :=
  if cart.isEmpty then (false, [.emptyCart])
  else
    let errors := (cart.map (fun item =>
      let avail := fetchStock item.productId
      if avail ≤ 0 then [CartIssue.outOfStock item.name]
      else if avail < item.quantity then
        [CartIssue.insufficientStockFor item.name avail]
      else [])).flatten
    (errors.isEmpty, errors)

/-! ### Checkout (`src/js/checkout.js`) -/

/-- The `APP_CONFIG.SHIPPING` object (`config.js` lines 59–63). -/
structure ShippingConfig where
  freeThreshold : Rat
  standardCost : Rat
  expressCost : Rat
  deriving Repr, DecidableEq

/-- The concrete configuration shipped in `config.js`:
`FREE_THRESHOLD = 1500`, `STANDARD_COST = 150`, `EXPRESS_COST = 250`. -/
def appShippingConfig : ShippingConfig :=
  { freeThreshold := 1500, standardCost := 150, expressCost := 250 }

/-- `APP_CONFIG.VAT_RATE = 0.15` (`config.js` line 58). -/
def appVatRate : Rat := 15 / 100

/-- `CheckoutService.calculateShipping` (`checkout.js` lines 207–231): free
when the (undiscounted) cart subtotal reaches the threshold, otherwise a flat
rate selected by the shipping method (unknown methods fall back to standard).
-/
def calculateShipping (cfg : ShippingConfig) (cartSubtotal : Rat)
    (method : String) : Rat :=
  if cfg.freeThreshold ≤ cartSubtotal then 0
  else if method = "standard" then cfg.standardCost
  else if method = "express" then cfg.expressCost
  else if method = "pickup" then 0
  else cfg.standardCost

/-- The record returned by `CheckoutService.calculateTotals`. -/
structure TotalsResult where
  subtotal : Rat
  discount : Rat
  subtotalAfterDiscount : Rat
  vat : Rat
  shipping : Rat
  total : Rat
  deriving Repr, DecidableEq

/-- `CheckoutService.calculateTotals` (`checkout.js` lines 236–253): VAT is
applied to the discounted subtotal, but `calculateShipping` is fed the
*undiscounted* `cartSubtotal`. -/
def calculateTotals (vatRate : Rat) (cfg : ShippingConfig)
    (cartSubtotal discount : Rat) (method : String) : TotalsResult :=
  let subtotalAfterDiscount := cartSubtotal - discount
  let vat := subtotalAfterDiscount * vatRate
  let shipping := calculateShipping cfg cartSubtotal method
  { subtotal := cartSubtotal, discount := discount,
    subtotalAfterDiscount := subtotalAfterDiscount, vat := vat,
    shipping := shipping, total := subtotalAfterDiscount + vat + shipping }

/-- Stated from the claim text (spec §8 "Totals estimate"): for subtotal S,
discount D, free-shipping threshold T, standard cost C,
`total = (S−D)*1.15 + (0 if (S−D) ≥ T else C)`. -/
def claimedTotalFormula (S D T C : Rat) : Rat :=
  (S - D) * (115 / 100) + (if T ≤ S - D then 0 else C)

/-- The checkout-session fields read by `CheckoutService.validateCheckout`
and `createOrder` (`checkout.js`); `""` models a falsy unset method. -/
structure CheckoutData where
  shippingMethod : String
  paymentMethod : String
  agreeToTerms : Bool
  discount : Rat
  couponCode : String
  deriving Repr, DecidableEq

/-- The errors accumulated by `CheckoutService.validateCheckout`
(`checkout.js` lines 258–292): cart issues, shipping-info messages
(computed by `validateShippingInfo`, passed here as the opaque list it
returns since they do not depend on the cart), then the method and terms
checks. -/
inductive CheckoutIssue where
  | cartIssue (i : CartIssue)
  | shipping (msg : String)
  | noShippingMethod
  | noPaymentMethod
  | termsNotAgreed
  deriving Repr, DecidableEq

/-- `CheckoutService.validateCheckout` (`checkout.js` lines 258–292); first
component is `isValid`. -/
def validateCheckout (cart : List CartItem) (shippingErrs : List String)
    (cd : CheckoutData) : Bool × List CheckoutIssue :=
  let errors :=
    (validateCart cart).2.map CheckoutIssue.cartIssue ++
    shippingErrs.map CheckoutIssue.shipping ++
    (if cd.shippingMethod = "" then [CheckoutIssue.noShippingMethod] else []) ++
    (if cd.paymentMethod = "" then [CheckoutIssue.noPaymentMethod] else []) ++
    (if cd.agreeToTerms then [] else [CheckoutIssue.termsNotAgreed])
  (errors.isEmpty, errors)

/-- The backend's reply to `POST /orders` as read by
`CheckoutService.createOrder` (`response.success && response.order`). -/
structure OrdersApiResponse where
  success : Bool
  order : Option Nat
  message : Option String
  deriving Repr, DecidableEq

/-- How a `createOrder` run ended: a validation failure (before any network
traffic), a backend rejection, or a created order. -/
inductive CreateOrderResult where
  | validationFailed (issues : List CheckoutIssue)
  | backendRejected (msg : String)
  | created (order : Nat)
  deriving Repr, DecidableEq

/-- A `createOrder` run: whether the order POST was issued, and the outcome.
-/
structure CreateOrderRun where
  posted : Bool
  result : CreateOrderResult
  deriving Repr, DecidableEq

/-- `CheckoutService.createOrder` (`checkout.js` lines 297–343): run
`validateCheckout`; when invalid, throw (no POST).  Otherwise POST the order
and either clear the cart on `success && order`, or throw the backend's
message. -/
def createOrder (cart : List CartItem) (shippingErrs : List String)
    (cd : CheckoutData) (resp : OrdersApiResponse) : CreateOrderRun :=
  let v := validateCheckout cart shippingErrs cd
  if v.1 = false then
    { posted := false, result := .validationFailed v.2 }
  else
    match resp.success, resp.order with
    | true, some o => { posted := true, result := .created o }
    | _, _ =>
      { posted := true,
        result := .backendRejected (resp.message.getD "Failed to create order") }

/-! ### Resilient request layer (`APIService`) -/

/-- A backend HTTP response as consumed by `APIService.handleResponse`:
its status code and the optional `message` field of its JSON body. -/
structure HttpResponse where
  status : Nat
  message : Option String
  deriving Repr, DecidableEq

/-- `response.ok`: status in the 2xx range. -/
def respOk (r : HttpResponse) : Bool :=
  200 ≤ r.status && r.status < 300

/-- `APIService.handleResponse` (API service lines 35–77): return the JSON
body on 2xx, otherwise throw an `Error` whose message is chosen by the
status-code `switch` (a backend `message` overrides the default for 400, 404
and the default branch; the 401 branch also clears the stored credentials).
-/
def handleResponse (r : HttpResponse) : Except String HttpResponse :=
  if respOk r then .ok r
  else if r.status = 400 then
    .error (r.message.getD "Invalid request. Please check your input.")
  else if r.status = 401 then .error "Session expired. Please login again."
  else if r.status = 403 then .error "Access denied. You do not have permission."
  else if r.status = 404 then .error (r.message.getD "Resource not found.")
  else if r.status = 500 then .error "Server error. Please try again later."
  else if r.status = 503 then
    .error "Service temporarily unavailable. Please try again later."
  else .error (r.message.getD "Something went wrong. Please try again.")

/-- Whether `sub` occurs contiguously in the character list `s`
(JS `String.prototype.includes`). -/
def charsHave (sub : List Char) : List Char → Bool
  | [] => sub.isEmpty
  | c :: rest => (sub.isPrefixOf (c :: rest)) || charsHave sub rest

/-- JS `msg.includes(sub)`. -/
def strHas (sub msg : String) : Bool :=
  charsHave sub.toList msg.toList

/-- The client-error test of `APIService.retryRequest` (API service lines
114–120): an error is treated as a non-retryable 4xx when its *message*
contains one of four fixed substrings. -/
def isClientErrorMessage (msg : String) : Bool :=
  strHas "Invalid request" msg || strHas "Session expired" msg ||
    strHas "Access denied" msg || strHas "not found" msg

/-- Outcome of a `retryRequest` run: the final result, how many attempts were
made, and the backoff delays (in ms) slept between attempts. -/
structure RetryResult where
  result : Except String HttpResponse
  calls : Nat
  delays : List Rat
  deriving Repr

/-- The loop of `APIService.retryRequest` (API service lines 105–133).
`resp i` is the response the network yields on attempt `i`; `remaining` is
`attempts - i`.  A 2xx returns; a client-classified error is rethrown at
once; otherwise, after all but the last attempt, the loop sleeps
`retryDelay * 2^i` and retries, and after the last it rethrows the last
error. -/
def retryGo (resp : Nat → HttpResponse) (d : Rat) (attempts : Nat) :
    Nat → Nat → List Rat → String → RetryResult
  | 0, calls, delays, lastErr =>
    { result := .error lastErr, calls := calls, delays := delays }
  | remaining + 1, calls, delays, _ =>
    match handleResponse (resp (attempts - (remaining + 1))) with
    | .ok r => { result := .ok r, calls := calls + 1, delays := delays }
    | .error msg =>
      if isClientErrorMessage msg then
        { result := .error msg, calls := calls + 1, delays := delays }
      else
        let delays' :=
          if remaining = 0 then delays
          else delays ++ [d * 2 ^ (attempts - (remaining + 1))]
        retryGo resp d attempts remaining (calls + 1) delays' msg

/-- `APIService.retryRequest` run against the attempt-indexed responses
`resp`, with base delay `d` and the configured attempt count. -/
def retryRequest (resp : Nat → HttpResponse) (d : Rat) (attempts : Nat) :
    RetryResult :=
  retryGo resp d attempts attempts 0 [] ""

/-! ### Guest session, login and cart merge (`APIService` + `login.js`) -/

/-- The durable browser storage keys the merge flow touches:
`localStorage.sessionId` and `localStorage.authToken`. -/
structure Storage where
  sessionId : Option String
  authToken : Option String
  deriving Repr, DecidableEq

/-- Modelled from the spec (§6, the backend is an external collaborator whose
REST contract the spec describes): the backend cart state — one guest cart
per session id, plus the authenticated user's cart, each a list of
variant-id/quantity pairs. -/
structure BackendState where
  guestCarts : List (String × List (Nat × Int))
  userCart : List (Nat × Int)
  deriving Repr, DecidableEq

/-- Modelled from the spec: `POST /cart/merge` — the backend merges the guest
`sessionId`'s cart into the user cart without duplicating lines (spec §4.3:
idempotence of the merge "is delegated to the backend"): guest lines whose
variant the user cart already has keep the user-cart quantity, the rest are
appended; the guest cart is then dropped. -/
def backendMerge (be : BackendState) (sid : String) : BackendState :=
  let guest := ((be.guestCarts.find? (fun g => g.1 == sid)).map (·.2)).getD []
  let merged := be.userCart ++
    guest.filter (fun gl => ¬ be.userCart.any (fun ul => ul.1 == gl.1))
  { guestCarts := be.guestCarts.filter (fun g => ¬ g.1 == sid),
    userCart := merged }

/-- Modelled from the spec (§6): `GET /cart` for an authenticated user
returns the user's cart. -/
def getCartAuth (be : BackendState) : List (Nat × Int) :=
  be.userCart

/-- The observable client actions of the login flow, in order. -/
inductive LoginEvent where
  | postLogin
  | invokeMergeCart
  | postMerge (sid : String)
  | navigate
  deriving Repr, DecidableEq

/-- `APIService.mergeCart` (API service lines 352–365): only when both a
guest `sessionId` and an auth token are stored, POST the session id to the
merge endpoint; on success remove `sessionId` from storage; a failure is
caught ("allow login to proceed even if merge fails"), leaving the session id
in place. -/
def mergeCart (st : Storage) (be : BackendState) (netOk : Bool) :
    Storage × BackendState × List LoginEvent :=
  match st.sessionId, st.authToken with
  | some sid, some _ =>
    if netOk then
      ({ st with sessionId := none }, backendMerge be sid, [.postMerge sid])
    else (st, be, [.postMerge sid])
  | _, _ => (st, be, [])

/-- The login/registration response shape tested by `handleLogin`
(`login.js` line 42) and `handleRegister`:
`response.success || response.data || response.token`. -/
structure LoginResponse where
  success : Bool
  dataPresent : Bool
  token : Option String
  deriving Repr, DecidableEq

/-- `APIService.login` / `APIService.register` token handling (API service
lines 245–264): when the response carries a token, store it. -/
def applyLoginToken (st : Storage) (resp : LoginResponse) : Storage :=
  match resp.token with
  | some t => { st with authToken := some t }
  | none => st

/-- `handleLogin` (`login.js` lines 36–57) and the identically-shaped
`handleRegister`: POST the credentials; on a truthy response, invoke
`api.mergeCart()` exactly once, then navigate away.  A falsy response shows
an error and performs no merge. -/
def handleLogin (st : Storage) (be : BackendState) (resp : LoginResponse)
    (netOk : Bool) : Storage × BackendState × List LoginEvent :=
  let st₁ := applyLoginToken st resp
  if resp.success || resp.dataPresent || resp.token.isSome then
    let (st₂, be₂, ev) := mergeCart st₁ be netOk
    (st₂, be₂, [.postLogin, .invokeMergeCart] ++ ev ++ [.navigate])
  else (st₁, be, [.postLogin])

/-! ### Payment handoff (`handleCheckoutSubmit` / `redirectToPayFast`) -/

/-- A JS value occurring in the `paymentData` object. -/
inductive JsVal where
  | str (v : String)
  | boolean (v : Bool)
  deriving Repr, DecidableEq

/-- JS truthiness for the values above (`paymentData.sandbox` test). -/
def truthy : JsVal → Bool
  | .str v => !(v == "")
  | .boolean v => v

/-- The `paymentData` object: its key/value pairs in key order (JS object
keys are unique). -/
abbrev PaymentData := List (String × JsVal)

/-- `paymentData[k]`. -/
def lookupKey (pd : PaymentData) (k : String) : Option JsVal :=
  (List.find? (fun kv => kv.1 == k) pd).map (·.2)

/-- The HTML form built by `redirectToPayFast`. -/
structure PayForm where
  formMethod : String
  action : String
  fields : List (String × JsVal)
  deriving Repr, DecidableEq

/-- `redirectToPayFast(paymentData)` (checkout page script lines 748–770):
a POST form whose action is the sandbox or live PayFast processing URL
according to the truthiness of `paymentData.sandbox`, with one hidden input
per key other than `sandbox`, holding that key's value. -/
def redirectToPayFast (pd : PaymentData) : PayForm :=
  { formMethod := "POST",
    action :=
      if (lookupKey pd "sandbox").elim false truthy then
        "https://sandbox.payfast.co.za/eng/process"
      else "https://www.payfast.co.za/eng/process",
    fields := List.filter (fun kv => !(kv.1 == "sandbox")) pd }

/-- What `handleCheckoutSubmit` does after `api.createOrder` resolves. -/
inductive CheckoutAction where
  | redirectForm (f : PayForm)
  | navigateOrderDetails (oid : Nat)
  | showError (msg : String)
  deriving Repr, DecidableEq

/-- The order-creation response shape read by `handleCheckoutSubmit`
(checkout page script lines 717–735): a success flag, the created order's id
and an optional `paymentData` object. -/
structure SubmitResponse where
  success : Bool
  orderId : Nat
  paymentData : Option PaymentData
  message : Option String

/-- The response-dispatch tail of `handleCheckoutSubmit` (lines 717–735):
with `paymentData` present, build and submit the PayFast form; without it,
navigate to the order-details (confirmation) page; a falsy response surfaces
the backend's message. -/
def handleCheckoutSubmitResponse (resp : SubmitResponse) : CheckoutAction :=
  if resp.success then
    match resp.paymentData with
    | some pd => .redirectForm (redirectToPayFast pd)
    | none => .navigateOrderDetails resp.orderId
  else .showError (resp.message.getD "Failed to create order")

/-! ### Helper lemmas -/

/-- Every cart line has a positive quantity (the spec's quantity-floor
invariant). -/
def allPos (cart : List CartItem) : Prop :=
  ∀ it ∈ cart, 1 ≤ it.quantity

/-- Every line's `idField` is unset (the shape of locally-created lines). -/
def idFieldsNone (cart : List CartItem) : Prop :=
  ∀ x ∈ cart, x.idField = none

lemma matchesId_set (item : CartItem) (pid : Nat) (q : Int) :
    matchesId { item with quantity := q } pid = matchesId item pid := rfl

lemma matchesId_of_idNone {x : CartItem} (h : x.idField = none) (pid : Nat) :
    matchesId x pid = (x.productId == pid) := by
  simp [matchesId, h]

lemma syncWithBackend_ok (sy : Except String Unit) :
    syncWithBackend sy = .ok () := by
  cases sy <;> rfl

lemma findCartItem_of_countMatches_zero {cart : List CartItem} {pid : Nat}
    (h : countMatches cart pid = 0) : findCartItem cart pid = none :=
  List.find?_eq_none.mpr (List.countP_eq_zero.mp h)

lemma findIdx?_cons_zero {α : Type _} (p : α → Bool) (x : α) (xs : List α) :
    (x :: xs).findIdx? p = if p x then some 0 else (xs.findIdx? p).map (· + 1) := by
  rw [List.findIdx?_cons, List.findIdx?_succ]

lemma countP_eraseIdx_findIdx {α : Type _} (p : α → Bool) :
    ∀ (l : List α) (i : Nat), l.findIdx? p = some i →
      l.countP p ≤ 1 → (l.eraseIdx i).countP p = 0 := by
  intro l
  induction l with
  | nil => intro i h; simp [List.findIdx?] at h
  | cons a l ih =>
    intro i h hcount
    rw [findIdx?_cons_zero] at h
    by_cases hpa : p a
    · simp only [hpa, if_true, Option.some.injEq] at h
      subst h
      rw [List.countP_cons_of_pos p l hpa] at hcount
      simpa [List.eraseIdx] using Nat.le_of_succ_le_succ hcount
    · rw [if_neg hpa] at h
      obtain ⟨j, hj, hji⟩ := Option.map_eq_some'.mp h
      subst hji
      rw [List.countP_cons_of_neg p l hpa] at hcount
      simpa [List.eraseIdx, List.countP_cons_of_neg p _ hpa] using ih j hj hcount

lemma removeFromCart_of_findIdx_none {cart : List CartItem} {pid : Nat}
    (sy : Except String Unit)
    (h : cart.findIdx? (fun it => matchesId it pid) = none) :
    removeFromCart cart pid sy = (false, cart) := by
  simp [removeFromCart, removeFromCartE, h]

lemma removeFromCart_of_findIdx_some {cart : List CartItem} {pid : Nat}
    {i : Nat} (sy : Except String Unit)
    (h : cart.findIdx? (fun it => matchesId it pid) = some i) :
    removeFromCart cart pid sy = (true, cart.eraseIdx i) := by
  simp [removeFromCart, removeFromCartE, h, syncWithBackend_ok]

lemma find?_setQuantityFirst (cart : List CartItem) (pid : Nat) (q : Int) :
    findCartItem (setQuantityFirst cart pid q) pid =
      (findCartItem cart pid).map (fun it => { it with quantity := q }) := by
  induction cart with
  | nil => rfl
  | cons a l ih =>
    by_cases h : matchesId a pid
    · simp [setQuantityFirst, findCartItem, h, List.find?_cons_of_pos,
        matchesId_set]
    · simpa [setQuantityFirst, findCartItem, h, List.find?_cons_of_neg,
        matchesId_set] using ih

lemma setQuantityFirst_append_of_no_match {pid : Nat}
    (l₂ : List CartItem) (q : Int) :
    ∀ l₁ : List CartItem, (∀ x ∈ l₁, matchesId x pid = false) →
      setQuantityFirst (l₁ ++ l₂) pid q = l₁ ++ setQuantityFirst l₂ pid q := by
  intro l₁
  induction l₁ with
  | nil => intro _; rfl
  | cons a l ih =>
    intro h
    have ha : matchesId a pid = false := h a (by simp)
    simp only [List.cons_append, setQuantityFirst, ha, Bool.false_eq_true,
      if_false, List.cons.injEq, true_and]
    exact ih fun x hx => h x (by simp [hx])

lemma mem_setQuantityFirst_of_no_match {x : CartItem} {pid : Nat} (q : Int) :
    ∀ cart : List CartItem, x ∈ cart → matchesId x pid = false →
      x ∈ setQuantityFirst cart pid q := by
  intro cart
  induction cart with
  | nil => intro hx _; simp at hx
  | cons a l ih =>
    intro hx hm
    rcases List.mem_cons.mp hx with rfl | hxl
    · simp [setQuantityFirst, hm]
    · by_cases ha : matchesId a pid
      · simp [setQuantityFirst, ha, hxl]
      · simp only [setQuantityFirst, ha, Bool.false_eq_true, if_false,
          List.mem_cons]
        exact Or.inr (ih hxl hm)

lemma find?_setQuantityFirst_other {b pid : Nat} (q : Int) (hne : pid ≠ b) :
    ∀ cart : List CartItem, idFieldsNone cart →
      findCartItem (setQuantityFirst cart b q) pid = findCartItem cart pid := by
  intro cart
  induction cart with
  | nil => intro _; rfl
  | cons a l ih =>
    intro hid
    have haid : a.idField = none := hid a (by simp)
    by_cases h : matchesId a b
    · have hab : a.productId = b := by
        have hb := h
        rw [matchesId_of_idNone haid] at hb
        simpa using hb
      have hnot : matchesId a pid = false := by
        rw [matchesId_of_idNone haid, hab]
        simpa using fun hcontra => hne hcontra.symm
      have hnot' : matchesId { a with quantity := q } pid = false := by
        rw [matchesId_set]; exact hnot
      simp [setQuantityFirst, h, findCartItem, List.find?_cons_of_neg, hnot,
        hnot']
    · by_cases hpa : matchesId a pid
      · simp [setQuantityFirst, h, findCartItem, List.find?_cons_of_pos, hpa]
      · simpa [setQuantityFirst, h, findCartItem, List.find?_cons_of_neg, hpa]
          using ih fun x hx => hid x (by simp [hx])

lemma idFieldsNone_setQuantityFirst {pid : Nat} (q : Int) :
    ∀ cart : List CartItem, idFieldsNone cart →
      idFieldsNone (setQuantityFirst cart pid q) := by
  intro cart
  induction cart with
  | nil => intro h; exact h
  | cons a l ih =>
    intro h
    have ha : a.idField = none := h a (by simp)
    by_cases hm : matchesId a pid
    · intro x hx
      rcases List.mem_cons.mp (by simpa [setQuantityFirst, hm] using hx)
        with rfl | hxl
      · exact ha
      · exact h x (by simp [hxl])
    · intro x hx
      rcases List.mem_cons.mp (by simpa [setQuantityFirst, hm] using hx)
        with rfl | hxl
      · exact ha
      · exact ih (fun y hy => h y (by simp [hy])) x hxl

lemma allPos_setQuantityFirst {pid : Nat} {q : Int} (hq : 1 ≤ q) :
    ∀ cart : List CartItem, allPos cart →
      allPos (setQuantityFirst cart pid q) := by
  intro cart
  induction cart with
  | nil => intro h; exact h
  | cons a l ih =>
    intro h
    by_cases hm : matchesId a pid
    · intro x hx
      rcases List.mem_cons.mp (by simpa [setQuantityFirst, hm] using hx)
        with rfl | hxl
      · exact hq
      · exact h x (by simp [hxl])
    · intro x hx
      rcases List.mem_cons.mp (by simpa [setQuantityFirst, hm] using hx)
        with rfl | hxl
      · exact h _ (by simp)
      · exact ih (fun y hy => h y (by simp [hy])) x hxl

lemma allPos_eraseIdx {cart : List CartItem} (i : Nat) (h : allPos cart) :
    allPos (cart.eraseIdx i) :=
  fun it hm => h it ((List.eraseIdx_sublist cart i).subset hm)

lemma updateQuantity_of_lt_one {cart : List CartItem} {pid : Nat} {q : Int}
    (sy : Except String Unit) (h : q < 1) :
    updateQuantity cart pid q sy = removeFromCart cart pid sy := by
  simp [updateQuantity, updateQuantityE, h]

lemma updateQuantity_of_not_found {cart : List CartItem} {pid : Nat} {q : Int}
    (sy : Except String Unit) (h1 : ¬ q < 1)
    (hf : findCartItem cart pid = none) :
    updateQuantity cart pid q sy = (false, cart) := by
  simp [updateQuantity, updateQuantityE, h1, hf]

lemma updateQuantityE_of_stock_exceeded {cart : List CartItem} {pid : Nat}
    {q : Int} {item : CartItem} {s : Int} (sy : Except String Unit)
    (h1 : ¬ q < 1) (hf : findCartItem cart pid = some item)
    (hstock : item.stock = some s) (hlt : s < q) :
    updateQuantityE cart pid q sy = .error (.insufficientStock s) := by
  simp [updateQuantityE, h1, hf, hstock, hlt]

lemma updateQuantity_of_ok {cart : List CartItem} {pid : Nat} {q : Int}
    {item : CartItem} (sy : Except String Unit) (h1 : ¬ q < 1)
    (hf : findCartItem cart pid = some item)
    (hs : ∀ s, item.stock = some s → ¬ s < q) :
    updateQuantity cart pid q sy = (true, setQuantityFirst cart pid q) := by
  unfold updateQuantity updateQuantityE
  rw [if_neg h1, hf]
  cases hst : item.stock with
  | none => simp [hst, syncWithBackend_ok]
  | some s => simp [hst, hs s hst, syncWithBackend_ok]

lemma allPos_removeFromCart {cart : List CartItem} {pid : Nat}
    (sy : Except String Unit) (h : allPos cart) :
    allPos (removeFromCart cart pid sy).2 := by
  cases hf : cart.findIdx? (fun it => matchesId it pid) with
  | none => rw [removeFromCart_of_findIdx_none sy hf]; exact h
  | some i => rw [removeFromCart_of_findIdx_some sy hf]; exact allPos_eraseIdx i h

lemma allPos_updateQuantity {cart : List CartItem} {pid : Nat} {q : Int}
    (sy : Except String Unit) (h : allPos cart) :
    allPos (updateQuantity cart pid q sy).2 := by
  by_cases h1 : q < 1
  · rw [updateQuantity_of_lt_one sy h1]; exact allPos_removeFromCart sy h
  · cases hf : findCartItem cart pid with
    | none => rw [updateQuantity_of_not_found sy h1 hf]; exact h
    | some item =>
      cases hst : item.stock with
      | none =>
        rw [updateQuantity_of_ok sy h1 hf (fun s hs => by rw [hst] at hs; cases hs)]
        exact allPos_setQuantityFirst (Int.not_lt.mp h1) cart h
      | some s =>
        by_cases hlt : s < q
        · have := updateQuantityE_of_stock_exceeded sy h1 hf hst hlt
          simp [updateQuantity, this]; exact h
        · rw [updateQuantity_of_ok sy h1 hf
            (fun s' hs' => by rw [hst] at hs'; cases hs'; exact hlt)]
          exact allPos_setQuantityFirst (Int.not_lt.mp h1) cart h

lemma addToCartE_of_new {cart : List CartItem} {p : Product} {q : Int}
    (sy : Except String Unit) (h1 : ¬ q < 1)
    (h2 : stockBlocks p.stock q = false) (hf : findCartItem cart p.id = none) :
    addToCartE cart p q sy = .ok (true, cart ++ [mkCartItem p q]) := by
  simp [addToCartE, h1, h2, hf, syncWithBackend_ok]

lemma addToCartE_of_existing {cart : List CartItem} {p : Product} {q : Int}
    {existing : CartItem} (sy : Except String Unit) (h1 : ¬ q < 1)
    (h2 : stockBlocks p.stock q = false)
    (hf : findCartItem cart p.id = some existing)
    (h3 : stockBlocks p.stock (existing.quantity + q) = false) :
    addToCartE cart p q sy =
      .ok (updateQuantity cart existing.productId (existing.quantity + q) sy) := by
  simp [addToCartE, h1, h2, hf, h3]

lemma allPos_addToCart {cart : List CartItem} {p : Product} {q : Int}
    (sy : Except String Unit) (h : allPos cart) :
    allPos (addToCart cart p q sy).2 := by
  by_cases h1 : q < 1
  · simp [addToCart, addToCartE, h1]; exact h
  · by_cases h2 : stockBlocks p.stock q
    · simp [addToCart, addToCartE, h1, h2]; exact h
    · cases hf : findCartItem cart p.id with
      | none =>
        rw [addToCart, addToCartE_of_new sy h1 (by simpa using h2) hf]
        intro it hit
        rcases List.mem_append.mp hit with hl | hr
        · exact h it hl
        · rcases List.mem_singleton.mp hr with rfl
          exact Int.not_lt.mp h1
      | some existing =>
        by_cases h3 : stockBlocks p.stock (existing.quantity + q)
        · simp [addToCart, addToCartE, h1, h2, hf, h3]; exact h
        · rw [addToCart,
            addToCartE_of_existing sy h1 (by simpa using h2) hf (by simpa using h3)]
          exact allPos_updateQuantity sy h

lemma removeFromCart_false_or_true (cart : List CartItem) (pid : Nat)
    (sy : Except String Unit) :
    removeFromCart cart pid sy = (false, cart) ∨
      (removeFromCart cart pid sy).1 = true := by
  cases hf : cart.findIdx? (fun it => matchesId it pid) with
  | none => exact Or.inl (removeFromCart_of_findIdx_none sy hf)
  | some i => exact Or.inr (by rw [removeFromCart_of_findIdx_some sy hf])

lemma updateQuantity_false_or_true (cart : List CartItem) (pid : Nat)
    (q : Int) (sy : Except String Unit) :
    updateQuantity cart pid q sy = (false, cart) ∨
      (updateQuantity cart pid q sy).1 = true := by
  by_cases h1 : q < 1
  · rw [updateQuantity_of_lt_one sy h1]
    exact removeFromCart_false_or_true cart pid sy
  · cases hf : findCartItem cart pid with
    | none => exact Or.inl (updateQuantity_of_not_found sy h1 hf)
    | some item =>
      cases hst : item.stock with
      | none =>
        refine Or.inr ?_
        rw [updateQuantity_of_ok sy h1 hf (fun s hs => by rw [hst] at hs; cases hs)]
      | some s =>
        by_cases hlt : s < q
        · refine Or.inl ?_
          have := updateQuantityE_of_stock_exceeded sy h1 hf hst hlt
          simp [updateQuantity, this]
        · refine Or.inr ?_
          rw [updateQuantity_of_ok sy h1 hf
            (fun s' hs' => by rw [hst] at hs'; cases hs'; exact hlt)]

lemma addToCart_false_or_true (cart : List CartItem) (p : Product) (q : Int)
    (sy : Except String Unit) :
    addToCart cart p q sy = (false, cart) ∨ (addToCart cart p q sy).1 = true := by
  by_cases h1 : q < 1
  · exact Or.inl (by simp [addToCart, addToCartE, h1])
  · by_cases h2 : stockBlocks p.stock q
    · exact Or.inl (by simp [addToCart, addToCartE, h1, h2])
    · cases hf : findCartItem cart p.id with
      | none =>
        refine Or.inr ?_
        rw [addToCart, addToCartE_of_new sy h1 (by simpa using h2) hf]
      | some existing =>
        by_cases h3 : stockBlocks p.stock (existing.quantity + q)
        · exact Or.inl (by simp [addToCart, addToCartE, h1, h2, hf, h3])
        · rw [addToCart,
            addToCartE_of_existing sy h1 (by simpa using h2) hf (by simpa using h3)]
          exact updateQuantity_false_or_true cart existing.productId
            (existing.quantity + q) sy

lemma removeFromCartE_sync_indep (cart : List CartItem) (pid : Nat)
    (sy sy' : Except String Unit) :
    removeFromCartE cart pid sy = removeFromCartE cart pid sy' := by
  simp [removeFromCartE, syncWithBackend_ok]

lemma removeFromCart_sync_indep (cart : List CartItem) (pid : Nat)
    (sy sy' : Except String Unit) :
    removeFromCart cart pid sy = removeFromCart cart pid sy' := by
  simp [removeFromCart, removeFromCartE_sync_indep cart pid sy sy']

lemma updateQuantity_sync_indep (cart : List CartItem) (pid : Nat) (q : Int)
    (sy sy' : Except String Unit) :
    updateQuantity cart pid q sy = updateQuantity cart pid q sy' := by
  simp only [updateQuantity, updateQuantityE,
    removeFromCart_sync_indep cart pid sy sy', syncWithBackend_ok]

lemma addToCart_sync_indep (cart : List CartItem) (p : Product) (q : Int)
    (sy sy' : Except String Unit) :
    addToCart cart p q sy = addToCart cart p q sy' := by
  simp only [addToCart, addToCartE, syncWithBackend_ok]
  by_cases h1 : q < 1
  · simp [h1]
  · by_cases h2 : stockBlocks p.stock q
    · simp [h1, h2]
    · cases hf : findCartItem cart p.id with
      | none => simp [h1, h2, hf]
      | some existing =>
        simp [h1, h2, hf,
          updateQuantity_sync_indep cart existing.productId
            (existing.quantity + q) sy sy']

lemma find_mergeOne_self (cart : List CartItem) (b : CartItem) :
    ∃ it, findCartItem (mergeOne cart b) b.productId = some it ∧
      it.quantity = b.quantity := by
  cases hf : findCartItem cart b.productId with
  | some it0 =>
    refine ⟨{ it0 with quantity := b.quantity }, ?_, rfl⟩
    simp [mergeOne, hf, find?_setQuantityFirst]
  | none =>
    refine ⟨b, ?_, rfl⟩
    have hb : matchesId b b.productId = true := by simp [matchesId]
    simp only [mergeOne, hf]
    have hf' : List.find? (fun item => matchesId item b.productId) cart = none := hf
    simp [findCartItem, List.find?_append, hf', hb]

lemma find_mergeOne_other {cart : List CartItem} {b : CartItem} {pid : Nat}
    (hid : idFieldsNone cart) (hbid : b.idField = none)
    (hne : pid ≠ b.productId) :
    findCartItem (mergeOne cart b) pid = findCartItem cart pid := by
  cases hf : findCartItem cart b.productId with
  | some it0 =>
    simp only [mergeOne, hf]
    exact find?_setQuantityFirst_other b.quantity hne cart hid
  | none =>
    have hb : matchesId b pid = false := by
      rw [matchesId_of_idNone hbid]
      simpa using fun hcontra => hne hcontra.symm
    simp only [mergeOne, hf]
    simp [findCartItem, List.find?_append, hb]

lemma idFieldsNone_mergeOne {cart : List CartItem} {b : CartItem}
    (hid : idFieldsNone cart) (hbid : b.idField = none) :
    idFieldsNone (mergeOne cart b) := by
  cases hf : findCartItem cart b.productId with
  | some it0 =>
    simp only [mergeOne, hf]
    exact idFieldsNone_setQuantityFirst b.quantity cart hid
  | none =>
    simp only [mergeOne, hf]
    intro x hx
    rcases List.mem_append.mp hx with hl | hr
    · exact hid x hl
    · rcases List.mem_singleton.mp hr with rfl
      exact hbid

lemma find_loadFromBackend_other {pid : Nat} :
    ∀ (remote : List CartItem) (cart : List CartItem), idFieldsNone cart →
      (∀ b ∈ remote, b.idField = none) →
      (∀ b ∈ remote, b.productId ≠ pid) →
      findCartItem (loadFromBackend cart remote) pid = findCartItem cart pid := by
  intro remote
  induction remote with
  | nil => intro cart _ _ _; rfl
  | cons b rest ih =>
    intro cart hid hrid hrne
    have hb : findCartItem (loadFromBackend (mergeOne cart b) rest) pid =
        findCartItem (mergeOne cart b) pid :=
      ih (mergeOne cart b)
        (idFieldsNone_mergeOne hid (hrid b (by simp)))
        (fun b' hb' => hrid b' (by simp [hb']))
        (fun b' hb' => hrne b' (by simp [hb']))
    calc findCartItem (loadFromBackend cart (b :: rest)) pid
        = findCartItem (mergeOne cart b) pid := hb
      _ = findCartItem cart pid :=
          find_mergeOne_other hid (hrid b (by simp))
            (fun hcontra => hrne b (by simp) hcontra.symm)

lemma find_loadFromBackend_remote :
    ∀ (remote : List CartItem) (cart : List CartItem), idFieldsNone cart →
      (∀ b ∈ remote, b.idField = none) →
      (remote.map (fun b => b.productId)).Nodup →
      ∀ b ∈ remote, ∃ it,
        findCartItem (loadFromBackend cart remote) b.productId = some it ∧
          it.quantity = b.quantity := by
  intro remote
  induction remote with
  | nil => intro cart _ _ _ b hb; simp at hb
  | cons b0 rest ih =>
    intro cart hid hrid hnodup b hb
    have hid' : idFieldsNone (mergeOne cart b0) :=
      idFieldsNone_mergeOne hid (hrid b0 (by simp))
    have hrid' : ∀ b' ∈ rest, b'.idField = none :=
      fun b' hb' => hrid b' (by simp [hb'])
    rcases List.mem_cons.mp hb with rfl | hbrest
    · have hne : ∀ b' ∈ rest, b'.productId ≠ b.productId := by
        intro b' hb' hcontra
        have : b.productId ∈ rest.map (fun x => x.productId) :=
          List.mem_map.mpr ⟨b', hb', hcontra⟩
        exact (List.nodup_cons.mp hnodup).1 this
      have heq : findCartItem (loadFromBackend (mergeOne cart b) rest)
          b.productId = findCartItem (mergeOne cart b) b.productId :=
        find_loadFromBackend_other rest (mergeOne cart b) hid' hrid' hne
      obtain ⟨it, hit, hq⟩ := find_mergeOne_self cart b
      refine ⟨it, ?_, hq⟩
      have hstep : loadFromBackend cart (b :: rest) =
          loadFromBackend (mergeOne cart b) rest := rfl
      rw [hstep, heq]
      exact hit
    · exact ih (mergeOne cart b0) hid' hrid' (List.nodup_cons.mp hnodup).2
        b hbrest

lemma mem_loadFromBackend_local {x : CartItem} (hxid : x.idField = none) :
    ∀ (remote : List CartItem) (cart : List CartItem), x ∈ cart →
      (∀ b ∈ remote, b.productId ≠ x.productId) →
      x ∈ loadFromBackend cart remote := by
  intro remote
  induction remote with
  | nil => intro cart hx _; exact hx
  | cons b rest ih =>
    intro cart hx hne
    have hxm : matchesId x b.productId = false := by
      rw [matchesId_of_idNone hxid]
      simpa using fun hcontra => hne b (by simp) hcontra.symm
    have hx' : x ∈ mergeOne cart b := by
      cases hf : findCartItem cart b.productId with
      | some it0 =>
        simp only [mergeOne, hf]
        exact mem_setQuantityFirst_of_no_match b.quantity cart hx hxm
      | none =>
        simp only [mergeOne, hf]
        exact List.mem_append_left _ hx
    exact ih (mergeOne cart b) hx' (fun b' hb' => hne b' (by simp [hb']))

lemma allPos_mergeOne {cart : List CartItem} {b : CartItem}
    (h : allPos cart) (hb : 1 ≤ b.quantity) : allPos (mergeOne cart b) := by
  cases hf : findCartItem cart b.productId with
  | some it0 =>
    simp only [mergeOne, hf]
    exact allPos_setQuantityFirst hb cart h
  | none =>
    simp only [mergeOne, hf]
    intro x hx
    rcases List.mem_append.mp hx with hl | hr
    · exact h x hl
    · rcases List.mem_singleton.mp hr with rfl
      exact hb

lemma allPos_loadFromBackend :
    ∀ (remote : List CartItem) (cart : List CartItem), allPos cart →
      (∀ b ∈ remote, 1 ≤ b.quantity) → allPos (loadFromBackend cart remote) := by
  intro remote
  induction remote with
  | nil => intro cart h _; exact h
  | cons b rest ih =>
    intro cart h hq
    exact ih (mergeOne cart b) (allPos_mergeOne h (hq b (by simp)))
      (fun b' hb' => hq b' (by simp [hb']))

/-! ### Claim theorems -/

/-- Claim C6, counterexample: the claim says shipping is free exactly when
the *discounted* subtotal `S − D` reaches the threshold `T`, i.e.
`total = (S−D)*1.15 + (0 if (S−D) ≥ T else C)`.  At `S = 1500`, `D = 100`
(with the shipped config `T = 1500`, `C = 150`) the code's
`calculateShipping` compares the *undiscounted* subtotal `S = 1500 ≥ T` and
grants free shipping, giving total `1610`, while the claimed formula yields
`1760` (since `S − D = 1400 < T`). -/
theorem C6_counterexample :
    (calculateTotals appVatRate appShippingConfig 1500 100 "standard").total = 1610 ∧
    claimedTotalFormula 1500 100 appShippingConfig.freeThreshold
      appShippingConfig.standardCost = 1760 ∧
    (calculateTotals appVatRate appShippingConfig 1500 100 "standard").total ≠
      claimedTotalFormula 1500 100 appShippingConfig.freeThreshold
        appShippingConfig.standardCost := by
  refine ⟨?_, ?_, ?_⟩ <;>
    norm_num [calculateTotals, calculateShipping, claimedTotalFormula,
      appVatRate, appShippingConfig]

/-- Claim C6 (amended): for the standard shipping method, the checkout
totals estimate satisfies
`total = (S−D)*1.15 + (0 if S ≥ T else C)` — VAT at the fixed 15% rate is
applied to the discounted subtotal, but shipping is free exactly when the
*undiscounted* cart subtotal reaches the threshold (the code passes
`cartSubtotal`, not `subtotalAfterDiscount`, to `calculateShipping`).  The
claim's own example `S=1000, D=100, T=1500, C=150 ⇒ total = 1185` holds. -/
theorem C6_totals_amended :
    (∀ S D T C E : Rat,
      (calculateTotals (15 / 100) ⟨T, C, E⟩ S D "standard").total =
        (S - D) * (115 / 100) + (if T ≤ S then 0 else C)) ∧
    (calculateTotals appVatRate appShippingConfig 1000 100 "standard").total
      = 1185 := by
  constructor
  · intro S D T C E
    simp only [calculateTotals, calculateShipping]
    split_ifs <;> ring
  · norm_num [calculateTotals, calculateShipping, appVatRate,
      appShippingConfig]

/-- Claim C9: when the order-creation response carries a `paymentData`
object, the client builds a POST form whose action is the PayFast gateway
URL selected by the `sandbox` flag and whose fields are exactly the
non-`sandbox` key/value pairs of `paymentData`, and submits it; without
`paymentData` it navigates to the order-details (confirmation) page. -/
theorem C9_payment_redirect (resp : SubmitResponse) (pd : PaymentData) :
    (resp.success = true → resp.paymentData = some pd →
      handleCheckoutSubmitResponse resp = .redirectForm (redirectToPayFast pd) ∧
      (redirectToPayFast pd).formMethod = "POST" ∧
      (redirectToPayFast pd).action =
        (if (lookupKey pd "sandbox").elim false truthy then
          "https://sandbox.payfast.co.za/eng/process"
        else "https://www.payfast.co.za/eng/process") ∧
      (∀ k v, (k, v) ∈ (redirectToPayFast pd).fields ↔
        ((k, v) ∈ pd ∧ k ≠ "sandbox"))) ∧
    (resp.success = true → resp.paymentData = none →
      handleCheckoutSubmitResponse resp = .navigateOrderDetails resp.orderId) := by
  constructor
  · intro hs hp
    refine ⟨by simp [handleCheckoutSubmitResponse, hs, hp], rfl, rfl, ?_⟩
    intro k v
    simp [redirectToPayFast, List.mem_filter]
  · intro hs hp
    simp [handleCheckoutSubmitResponse, hs, hp]

/-- Claim C9 witness: a concrete sandbox `paymentData` object yields the
sandbox-gateway POST form with exactly the non-`sandbox` fields. -/
theorem C9_witness :
    ({ success := true, orderId := 42,
       paymentData := some [("merchant_id", JsVal.str "10000100"),
         ("amount", JsVal.str "1610.00"), ("sandbox", JsVal.boolean true)],
       message := none } : SubmitResponse).success = true ∧
    handleCheckoutSubmitResponse
      { success := true, orderId := 42,
        paymentData := some [("merchant_id", JsVal.str "10000100"),
          ("amount", JsVal.str "1610.00"), ("sandbox", JsVal.boolean true)],
        message := none } =
      .redirectForm (redirectToPayFast [("merchant_id", JsVal.str "10000100"),
        ("amount", JsVal.str "1610.00"), ("sandbox", JsVal.boolean true)]) ∧
    redirectToPayFast [("merchant_id", JsVal.str "10000100"),
        ("amount", JsVal.str "1610.00"), ("sandbox", JsVal.boolean true)] =
      { formMethod := "POST",
        action := "https://sandbox.payfast.co.za/eng/process",
        fields := [("merchant_id", JsVal.str "10000100"),
          ("amount", JsVal.str "1610.00")] } :=
  ⟨rfl,
    ((C9_payment_redirect _ _).1 rfl rfl).1,
    by decide⟩

lemma retryGo_client_err (f : Nat → HttpResponse) (d : Rat) (attempts : Nat)
    (remaining calls : Nat) (delays : List Rat) (lastErr msg : String)
    (h : handleResponse (f (attempts - (remaining + 1))) = .error msg)
    (hc : isClientErrorMessage msg = true) :
    retryGo f d attempts (remaining + 1) calls delays lastErr =
      { result := .error msg, calls := calls + 1, delays := delays } := by
  rw [retryGo, h]
  simp [hc]

/-- Claim C7, counterexample: the claim says a request whose first response
is a 4xx client error (400, 401, 403, 404) is never retried.  The retry
loop classifies client errors by *message substring*; a 404 whose JSON body
carries a backend `message` ("Product does not exist", which contains none
of the recognized substrings) is retried: with 3 configured attempts the
request function is called 3 times, not once. -/
theorem C7_counterexample :
    (retryRequest (fun _ => ⟨404, some "Product does not exist"⟩) 1 3).calls
      = 3 ∧
    1 < (retryRequest (fun _ => ⟨404, some "Product does not exist"⟩)
      1 3).calls := by
  constructor
  · rfl
  · norm_num [show (retryRequest (fun _ => ⟨404, some "Product does not exist"⟩)
      1 3).calls = 3 from rfl]

/-- Claim C7 (amended): with the configured 3 attempts, a response sequence
of two 503s then a 200 returns the 200 result, making exactly 3 calls with
exponentially increasing backoff delays `d·2⁰, d·2¹`; and a first response
that is a 4xx whose *classified message is a default one* (400 or 404
without a backend-supplied `message`, or any 401/403 — the code detects
client errors by message substring) is never retried: exactly one call is
made and the classified error propagates.  (A 400/404 whose backend message
lacks the recognized substrings is retried like a server error.) -/
theorem C7_retry_amended :
    (∀ d : Rat,
      retryRequest (fun i => if i < 2 then ⟨503, none⟩ else ⟨200, none⟩) d 3 =
        { result := .ok ⟨200, none⟩, calls := 3,
          delays := [d * 2 ^ 0, d * 2 ^ 1] } ∧
      (0 < d → d * 2 ^ 0 < d * 2 ^ 1)) ∧
    (∀ (f : Nat → HttpResponse) (d : Rat) (a : Nat) (s : Nat),
      f 0 = ⟨s, none⟩ → (s = 400 ∨ s = 401 ∨ s = 403 ∨ s = 404) →
      (retryRequest f d (a + 1)).calls = 1 ∧
      ∃ m, (retryRequest f d (a + 1)).result = .error m ∧
        isClientErrorMessage m = true) := by
  constructor
  · intro d
    refine ⟨rfl, fun hd => ?_⟩
    have : d * 2 ^ 0 = d := by ring
    have h2 : d * 2 ^ 1 = d * 2 := by ring
    rw [this, h2]
    linarith
  · intro f d a s hf0 hs
    have hsub : a + 1 - (a + 1) = 0 := Nat.sub_self _
    rcases hs with rfl | rfl | rfl | rfl <;>
    · have herr : handleResponse (f (a + 1 - (a + 1))) =
          .error (match handleResponse (f 0) with
            | .error m => m | .ok _ => "") := by
        rw [hsub, hf0]; rfl
      rw [retryRequest, retryGo_client_err f d (a + 1) a 0 [] "" _ herr
        (by rw [hf0]; decide)]
      exact ⟨rfl, _, rfl, by rw [hf0]; decide⟩

/-- Claim C7 witness: a first-attempt 404 with no backend message (default
classified message "Resource not found.") makes exactly one call. -/
theorem C7_witness :
    (fun _ : Nat => ({ status := 404, message := none } : HttpResponse)) 0 =
      ({ status := 404, message := none } : HttpResponse) ∧
    (retryRequest (fun _ => { status := 404, message := none }) 1 (2 + 1)).calls
      = 1 :=
  ⟨rfl,
    (C7_retry_amended.2 (fun _ => { status := 404, message := none }) 1 2 404
      rfl (Or.inr (Or.inr (Or.inr rfl)))).1⟩

/-- Claim C8: after a truthy login/registration response the client invokes
`api.mergeCart()` exactly once, immediately after the login POST; when a
guest `sessionId` and an auth token are present and the merge POST succeeds,
the `sessionId` is removed from storage.  In the guest-to-user scenario
(guest cart holds 2 units of variant 7 under session "S1"; registration
succeeds with token "T"), a subsequent authenticated `getCart` returns
exactly 2 units of variant 7 and storage holds no session id.  The backend
merge and cart endpoints are modelled from the spec (§6). -/
theorem C8_merge_on_login (st : Storage) (be : BackendState)
    (resp : LoginResponse) (netOk : Bool) :
    ((resp.success || resp.dataPresent || resp.token.isSome) = true →
      (handleLogin st be resp netOk).2.2.count .invokeMergeCart = 1 ∧
      ∃ rest, (handleLogin st be resp netOk).2.2 =
        [.postLogin, .invokeMergeCart] ++ rest) ∧
    ((resp.success || resp.dataPresent || resp.token.isSome) = false →
      (handleLogin st be resp netOk).2.2.count .invokeMergeCart = 0) ∧
    (∀ sid t, st.sessionId = some sid →
      (applyLoginToken st resp).authToken = some t →
      (resp.success || resp.dataPresent || resp.token.isSome) = true →
      netOk = true →
      (handleLogin st be resp netOk).1.sessionId = none ∧
      (handleLogin st be resp netOk).2.2.count (.postMerge sid) = 1) ∧
    (handleLogin ⟨some "S1", none⟩ ⟨[("S1", [(7, 2)])], []⟩
        ⟨true, false, some "T"⟩ true).1.sessionId = none ∧
    getCartAuth (handleLogin ⟨some "S1", none⟩ ⟨[("S1", [(7, 2)])], []⟩
        ⟨true, false, some "T"⟩ true).2.1 = [(7, 2)] ∧
    (handleLogin ⟨some "S1", none⟩ ⟨[("S1", [(7, 2)])], []⟩
        ⟨true, false, some "T"⟩ true).2.2.count (.postMerge "S1") = 1 := by
  refine ⟨?_, ?_, ?_, by decide, by decide, by decide⟩
  · intro htruthy
    have hsess : (applyLoginToken st resp).sessionId = st.sessionId := by
      unfold applyLoginToken; cases resp.token <;> rfl
    unfold handleLogin mergeCart
    rw [htruthy]
    simp only [if_true]
    cases hs : (applyLoginToken st resp).sessionId with
    | none => simp [List.count]
    | some sid =>
      cases ht : (applyLoginToken st resp).authToken with
      | none => simp [List.count]
      | some t => cases netOk <;> simp [List.count]
  · intro hfalsy
    unfold handleLogin
    rw [hfalsy]
    simp [List.count]
  · intro sid t hsid ht htruthy hnet
    have hsess : (applyLoginToken st resp).sessionId = st.sessionId := by
      unfold applyLoginToken; cases resp.token <;> rfl
    unfold handleLogin mergeCart
    rw [htruthy, hnet]
    simp only [if_true]
    rw [hsess, hsid, ht]
    simp [List.count]

/-- Claim C8 witness: the merge-success hypotheses hold in the concrete
guest-to-user scenario, and the theorem gives a cleared session id. -/
theorem C8_witness :
    (⟨some "S1", none⟩ : Storage).sessionId = some "S1" ∧
    (applyLoginToken ⟨some "S1", none⟩ ⟨true, false, some "T"⟩).authToken =
      some "T" ∧
    (handleLogin ⟨some "S1", none⟩ ⟨[("S1", [(7, 2)])], []⟩
      ⟨true, false, some "T"⟩ true).1.sessionId = none :=
  ⟨rfl, rfl,
    ((C8_merge_on_login ⟨some "S1", none⟩ ⟨[("S1", [(7, 2)])], []⟩
      ⟨true, false, some "T"⟩ true).2.2.1 "S1" "T" rfl rfl rfl rfl).1⟩

/-- Claim C3: a requested quantity above the available stock is rejected
with `InsufficientStock` and leaves the cart exactly as it was (no partial
apply) — for `addToCart` both when the product is new (cached
`product.stock < q`) and when the combined quantity of an existing line
would exceed stock, and for `updateQuantity` against the cached
`item.stock`; otherwise (`1 ≤ q` within stock) `updateQuantity` updates the
line in place to `q` (clamping to stock is the identity in range). -/
theorem C3_stock_reject (cart : List CartItem) (p : Product) (pid : Nat)
    (q : Int) (sy : Except String Unit) (s : Int) :
    (1 ≤ q → p.stock = some s → s < q →
      addToCartE cart p q sy = .error (.insufficientStock s) ∧
      addToCart cart p q sy = (false, cart)) ∧
    (∀ ex, 1 ≤ q → p.stock = some s → findCartItem cart p.id = some ex →
      s < ex.quantity + q → ¬ s < q →
      addToCartE cart p q sy = .error (.insufficientStock s) ∧
      addToCart cart p q sy = (false, cart)) ∧
    (∀ item, 1 ≤ q → findCartItem cart pid = some item →
      item.stock = some s → s < q →
      updateQuantityE cart pid q sy = .error (.insufficientStock s) ∧
      updateQuantity cart pid q sy = (false, cart)) ∧
    (∀ item, 1 ≤ q → findCartItem cart pid = some item →
      (∀ s', item.stock = some s' → q ≤ s') →
      updateQuantity cart pid q sy = (true, setQuantityFirst cart pid q) ∧
      findCartItem (setQuantityFirst cart pid q) pid =
        some { item with quantity := q }) := by
  refine ⟨?_, ?_, ?_, ?_⟩
  · intro hq hps hlt
    have h1 : ¬ q < 1 := Int.not_lt.mpr hq
    have hE : addToCartE cart p q sy = .error (.insufficientStock s) := by
      simp [addToCartE, h1, stockBlocks, hps, hlt]
    exact ⟨hE, by simp [addToCart, hE]⟩
  · intro ex hq hps hfind hlt hnlt
    have h1 : ¬ q < 1 := Int.not_lt.mpr hq
    have hb1 : stockBlocks p.stock q = false := by
      simp [stockBlocks, hps, hnlt]
    have hE : addToCartE cart p q sy = .error (.insufficientStock s) := by
      simp [addToCartE, h1, hb1, hfind, stockBlocks, hps, hlt]
    exact ⟨hE, by simp [addToCart, hE]⟩
  · intro item hq hfind hstock hlt
    have h1 : ¬ q < 1 := Int.not_lt.mpr hq
    have hE := updateQuantityE_of_stock_exceeded sy h1 hfind hstock hlt
    exact ⟨hE, by simp [updateQuantity, hE]⟩
  · intro item hq hfind hs
    have h1 : ¬ q < 1 := Int.not_lt.mpr hq
    refine ⟨updateQuantity_of_ok sy h1 hfind
      (fun s' hs' => Int.not_lt.mpr (hs s' hs')), ?_⟩
    rw [find?_setQuantityFirst, hfind]
    rfl

/-- Claim C3 witness: updating a line of cached stock 5 to quantity 10 is
rejected and the cart is unchanged. -/
theorem C3_witness :
    (1 : Int) ≤ 10 ∧
    findCartItem [⟨1, none, "Wig", 100, none, 2, some 5⟩] 1 =
      some ⟨1, none, "Wig", 100, none, 2, some 5⟩ ∧
    (⟨1, none, "Wig", 100, none, 2, some 5⟩ : CartItem).stock = some 5 ∧
    (5 : Int) < 10 ∧
    updateQuantity [⟨1, none, "Wig", 100, none, 2, some 5⟩] 1 10 (.ok ()) =
      (false, [⟨1, none, "Wig", 100, none, 2, some 5⟩]) :=
  ⟨by decide, by decide, rfl, by decide,
    ((C3_stock_reject [⟨1, none, "Wig", 100, none, 2, some 5⟩]
        ⟨1, "Wig", 100, none, some 5⟩ 1 10 (.ok ()) 5).2.2.1
      ⟨1, none, "Wig", 100, none, 2, some 5⟩ (by decide) (by decide) rfl
      (by decide)).2⟩

/-- Claim C4: starting from a cart with no line for product `p`, adding `p`
twice with quantities `q1` and `q2` (the combined quantity within stock)
yields exactly one cart line for `p` carrying quantity `q1 + q2`. -/
theorem C4_idempotent_add (cart : List CartItem) (p : Product) (q1 q2 : Int)
    (sy1 sy2 : Except String Unit) :
    1 ≤ q1 → 1 ≤ q2 → (∀ s, p.stock = some s → q1 + q2 ≤ s) →
    countMatches cart p.id = 0 →
    addToCart cart p q1 sy1 = (true, cart ++ [mkCartItem p q1]) ∧
    addToCart (cart ++ [mkCartItem p q1]) p q2 sy2 =
      (true, cart ++ [mkCartItem p (q1 + q2)]) ∧
    countMatches (cart ++ [mkCartItem p (q1 + q2)]) p.id = 1 := by
  intro hq1 hq2 hstock hcount
  have h1 : ¬ q1 < 1 := Int.not_lt.mpr hq1
  have h2 : ¬ q2 < 1 := Int.not_lt.mpr hq2
  have h12 : ¬ q1 + q2 < 1 := by omega
  have hb1 : stockBlocks p.stock q1 = false := by
    cases hps : p.stock with
    | none => rfl
    | some s =>
      have := hstock s hps
      simp [stockBlocks]
      omega
  have hb2 : stockBlocks p.stock q2 = false := by
    cases hps : p.stock with
    | none => rfl
    | some s =>
      have := hstock s hps
      simp [stockBlocks]
      omega
  have hb12 : stockBlocks p.stock (q1 + q2) = false := by
    cases hps : p.stock with
    | none => rfl
    | some s =>
      have := hstock s hps
      simp [stockBlocks]
      omega
  have hnomatch : ∀ x ∈ cart, matchesId x p.id = false :=
    fun x hx => by simpa using List.countP_eq_zero.mp hcount x hx
  have hfind : findCartItem cart p.id = none :=
    findCartItem_of_countMatches_zero hcount
  have hmatch : matchesId (mkCartItem p q1) p.id = true := by
    simp [matchesId, mkCartItem]
  have hfind2 : findCartItem (cart ++ [mkCartItem p q1]) p.id =
      some (mkCartItem p q1) := by
    unfold findCartItem at hfind ⊢
    rw [List.find?_append, hfind]
    simp [hmatch]
  have hstep1 : addToCart cart p q1 sy1 = (true, cart ++ [mkCartItem p q1]) := by
    rw [addToCart, addToCartE_of_new sy1 h1 hb1 hfind]
  have hupd : updateQuantity (cart ++ [mkCartItem p q1]) p.id (q1 + q2) sy2 =
      (true, setQuantityFirst (cart ++ [mkCartItem p q1]) p.id (q1 + q2)) := by
    refine updateQuantity_of_ok sy2 h12 hfind2 ?_
    intro s' hs'
    have : p.stock = some s' := hs'
    have := hstock s' this
    omega
  have hsingle : setQuantityFirst [mkCartItem p q1] p.id (q1 + q2) =
      [mkCartItem p (q1 + q2)] := by
    simp only [setQuantityFirst]
    rw [if_pos hmatch]
    rfl
  have hsqf : setQuantityFirst (cart ++ [mkCartItem p q1]) p.id (q1 + q2) =
      cart ++ [mkCartItem p (q1 + q2)] := by
    rw [setQuantityFirst_append_of_no_match _ _ cart hnomatch, hsingle]
  have hstep2 : addToCart (cart ++ [mkCartItem p q1]) p q2 sy2 =
      (true, cart ++ [mkCartItem p (q1 + q2)]) := by
    rw [addToCart, addToCartE_of_existing sy2 h2 hb2 hfind2 (by
      show stockBlocks p.stock ((mkCartItem p q1).quantity + q2) = false
      simpa [mkCartItem] using hb12)]
    show updateQuantity (cart ++ [mkCartItem p q1]) p.id (q1 + q2) sy2 = _
    rw [hupd, hsqf]
  refine ⟨hstep1, hstep2, ?_⟩
  unfold countMatches
  rw [List.countP_append]
  have : countMatches cart p.id = 0 := hcount
  unfold countMatches at this
  rw [this]
  simp [matchesId, mkCartItem]

/-- Claim C4 witness: adding product 2 with quantities 2 then 3 to an empty
cart yields the single line with quantity 5. -/
theorem C4_witness :
    (1 : Int) ≤ 2 ∧ (1 : Int) ≤ 3 ∧
    countMatches ([] : List CartItem) 2 = 0 ∧
    addToCart (addToCart [] ⟨2, "Bundle", 200, none, some 10⟩ 2 (.ok ())).2
        ⟨2, "Bundle", 200, none, some 10⟩ 3 (.ok ()) =
      (true, [mkCartItem ⟨2, "Bundle", 200, none, some 10⟩ 5]) ∧
    countMatches [mkCartItem ⟨2, "Bundle", 200, none, some 10⟩ 5] 2 = 1 := by
  have h := C4_idempotent_add [] ⟨2, "Bundle", 200, none, some 10⟩ 2 3
    (.ok ()) (.ok ()) (by decide) (by decide)
    (fun s hs => by cases hs; decide) (by decide)
  refine ⟨by decide, by decide, by decide, ?_, ?_⟩
  · rw [h.1]
    exact h.2.1
  · exact h.2.2

/-- Claim C5, counterexample: the claim says the positive-quantity invariant
is preserved by every cart operation *including load/merge from backend*;
but `loadFromBackend` copies remote quantities unchecked, so merging a
backend item with quantity 0 into a well-formed cart leaves a line with a
non-positive quantity. -/
theorem C5_counterexample :
    allPos [⟨1, none, "Wig", 100, none, 1, none⟩] ∧
    ¬ allPos (loadFromBackend [⟨1, none, "Wig", 100, none, 1, none⟩]
      [⟨2, none, "Bundle", 200, none, 0, none⟩]) := by
  constructor
  · intro it hit
    rcases List.mem_singleton.mp hit with rfl
    decide
  · intro h
    have hmem : (⟨2, none, "Bundle", 200, none, 0, none⟩ : CartItem) ∈
        loadFromBackend [⟨1, none, "Wig", 100, none, 1, none⟩]
          [⟨2, none, "Bundle", 200, none, 0, none⟩] := by decide
    have := h _ hmem
    exact absurd this (by decide)

/-- Claim C5 (amended): `updateQuantity` with `q ≤ 0` (`q < 1`) delegates to
`removeFromCart`, eliminating the matching line (when lines are unique);
the positive-quantity invariant is preserved by `addToCart`,
`updateQuantity`, `removeFromCart` and `clearCart`, and by
`loadFromBackend` *provided every remote item has a positive quantity*
(the merge copies remote quantities unchecked, so this proviso is
necessary). -/
theorem C5_quantity_floor_amended (cart : List CartItem) (pid : Nat)
    (q : Int) (p : Product) (sy : Except String Unit)
    (remote : List CartItem) :
    (q < 1 → updateQuantity cart pid q sy = removeFromCart cart pid sy) ∧
    (q < 1 → countMatches cart pid ≤ 1 →
      countMatches (updateQuantity cart pid q sy).2 pid = 0) ∧
    (allPos cart → allPos (addToCart cart p q sy).2) ∧
    (allPos cart → allPos (updateQuantity cart pid q sy).2) ∧
    (allPos cart → allPos (removeFromCart cart pid sy).2) ∧
    allPos (clearCart cart sy) ∧
    (allPos cart → (∀ b ∈ remote, 1 ≤ b.quantity) →
      allPos (loadFromBackend cart remote)) := by
  refine ⟨fun h => updateQuantity_of_lt_one sy h, ?_,
    fun h => allPos_addToCart sy h, fun h => allPos_updateQuantity sy h,
    fun h => allPos_removeFromCart sy h, by simp [clearCart, allPos],
    fun h hq => allPos_loadFromBackend remote cart h hq⟩
  intro h hcount
  rw [updateQuantity_of_lt_one sy h]
  cases hf : cart.findIdx? (fun it => matchesId it pid) with
  | none =>
    rw [removeFromCart_of_findIdx_none sy hf]
    exact List.countP_eq_zero.mpr
      (fun x hx => by simp [List.findIdx?_eq_none_iff.mp hf x hx])
  | some i =>
    rw [removeFromCart_of_findIdx_some sy hf]
    exact countP_eraseIdx_findIdx _ cart i hf hcount

/-- Claim C5 witness: `updateQuantity` to 0 removes the only matching line.
-/
theorem C5_witness :
    (0 : Int) < 1 ∧
    countMatches [⟨1, none, "Wig", 100, none, 3, none⟩] 1 ≤ 1 ∧
    countMatches
      (updateQuantity [⟨1, none, "Wig", 100, none, 3, none⟩] 1 0 (.ok ())).2
      1 = 0 :=
  ⟨by decide, by decide,
    (C5_quantity_floor_amended [⟨1, none, "Wig", 100, none, 3, none⟩] 1 0
      ⟨1, "Wig", 100, none, none⟩ (.ok ()) []).2.1 (by decide) (by decide)⟩

/-- Claim C10 (implicit): the public cart mutations never surface an
exception — each call either returns `false` with the cart exactly as it
was (every caught failure: invalid quantity, unknown item, insufficient
stock) or returns `true`; and the result is independent of the remote
sync's outcome (a sync failure is swallowed inside `syncWithBackend`, so a
successful local mutation still reports `true`). -/
theorem C10_no_exception (cart : List CartItem) (p : Product) (pid : Nat)
    (q : Int) (sy sy' : Except String Unit) :
    (addToCart cart p q sy = (false, cart) ∨
      (addToCart cart p q sy).1 = true) ∧
    (updateQuantity cart pid q sy = (false, cart) ∨
      (updateQuantity cart pid q sy).1 = true) ∧
    (removeFromCart cart pid sy = (false, cart) ∨
      (removeFromCart cart pid sy).1 = true) ∧
    (q < 1 → addToCart cart p q sy = (false, cart)) ∧
    (¬ q < 1 → findCartItem cart pid = none →
      updateQuantity cart pid q sy = (false, cart)) ∧
    (findCartItem cart pid = none →
      removeFromCart cart pid sy = (false, cart)) ∧
    addToCart cart p q sy = addToCart cart p q sy' ∧
    updateQuantity cart pid q sy = updateQuantity cart pid q sy' ∧
    removeFromCart cart pid sy = removeFromCart cart pid sy' := by
  refine ⟨addToCart_false_or_true cart p q sy,
    updateQuantity_false_or_true cart pid q sy,
    removeFromCart_false_or_true cart pid sy,
    fun h => by simp [addToCart, addToCartE, h],
    fun h1 hf => updateQuantity_of_not_found sy h1 hf,
    fun hf => ?_,
    addToCart_sync_indep cart p q sy sy',
    updateQuantity_sync_indep cart pid q sy sy',
    removeFromCart_sync_indep cart pid sy sy'⟩
  refine removeFromCart_of_findIdx_none sy (List.findIdx?_eq_none_iff.mpr ?_)
  intro x hx
  simpa using List.find?_eq_none.mp hf x hx

/-- Claim C10 witness: adding with quantity 0 fails with `false` and leaves
the cart untouched. -/
theorem C10_witness :
    (0 : Int) < 1 ∧
    addToCart [] ⟨1, "Wig", 100, none, none⟩ 0 (.error "offline") =
      (false, []) :=
  ⟨by decide,
    (C10_no_exception [] ⟨1, "Wig", 100, none, none⟩ 1 0 (.error "offline")
      (.ok ())).2.2.2.1 (by decide)⟩

/-- Claim C2: merging a fetched backend cart into the local cart
(`loadFromBackend`) is remote-authoritative — for every remote item the
resulting cart's line for that product id carries the *remote* quantity
(whether the item matched an existing local line or was appended), and
every local item whose product id does not occur remotely is still present,
untouched.  Hypotheses: items carry no duck-typed `id` alias and remote
product ids are distinct (carts are unique by variant id per the data
model). -/
theorem C2_remote_wins (localCart remote : List CartItem)
    (hid : idFieldsNone localCart)
    (hrid : ∀ b ∈ remote, b.idField = none)
    (hnodup : (remote.map (fun b => b.productId)).Nodup) :
    (∀ b ∈ remote, ∃ it,
      findCartItem (loadFromBackend localCart remote) b.productId = some it ∧
        it.quantity = b.quantity) ∧
    (∀ l ∈ localCart, (∀ b ∈ remote, b.productId ≠ l.productId) →
      l ∈ loadFromBackend localCart remote) := by
  refine ⟨find_loadFromBackend_remote remote localCart hid hrid hnodup, ?_⟩
  intro l hl hne
  exact mem_loadFromBackend_local (hid l hl) remote localCart hl hne

/-- Claim C2 witness: local A (product 1) qty 3 and B (product 2) qty 4,
remote A qty 5 — after the merge A has qty 5 (remote wins) and the
local-only B is still present; concretely the merged cart is `[A₅, B₄]`. -/
theorem C2_witness :
    idFieldsNone [⟨1, none, "A", 100, none, 3, none⟩,
      ⟨2, none, "B", 50, none, 4, none⟩] ∧
    (∀ b ∈ [(⟨1, none, "A", 100, none, 5, none⟩ : CartItem)],
      b.idField = none) ∧
    (∃ it, findCartItem
        (loadFromBackend
          [⟨1, none, "A", 100, none, 3, none⟩,
            ⟨2, none, "B", 50, none, 4, none⟩]
          [⟨1, none, "A", 100, none, 5, none⟩]) 1 = some it ∧
      it.quantity = 5) ∧
    (⟨2, none, "B", 50, none, 4, none⟩ : CartItem) ∈
      loadFromBackend
        [⟨1, none, "A", 100, none, 3, none⟩,
          ⟨2, none, "B", 50, none, 4, none⟩]
        [⟨1, none, "A", 100, none, 5, none⟩] ∧
    loadFromBackend
        [⟨1, none, "A", 100, none, 3, none⟩,
          ⟨2, none, "B", 50, none, 4, none⟩]
        [⟨1, none, "A", 100, none, 5, none⟩] =
      [⟨1, none, "A", 100, none, 5, none⟩,
        ⟨2, none, "B", 50, none, 4, none⟩] := by
  have hid : idFieldsNone [⟨1, none, "A", 100, none, 3, none⟩,
      ⟨2, none, "B", 50, none, 4, none⟩] := by
    intro x hx
    rcases List.mem_cons.mp hx with rfl | hx'
    · rfl
    · rcases List.mem_singleton.mp hx' with rfl
      rfl
  have hrid : ∀ b ∈ [(⟨1, none, "A", 100, none, 5, none⟩ : CartItem)],
      b.idField = none := by
    intro b hb
    rcases List.mem_singleton.mp hb with rfl
    rfl
  have h := C2_remote_wins
    [⟨1, none, "A", 100, none, 3, none⟩, ⟨2, none, "B", 50, none, 4, none⟩]
    [⟨1, none, "A", 100, none, 5, none⟩] hid hrid (by decide)
  refine ⟨hid, hrid, ?_, ?_, by decide⟩
  · have := h.1 ⟨1, none, "A", 100, none, 5, none⟩ (by decide)
    simpa using this
  · exact h.2 ⟨2, none, "B", 50, none, 4, none⟩ (by decide)
      (by intro b hb; rcases List.mem_singleton.mp hb with rfl; decide)

/-- Claim C1, counterexample: the claim says the pre-submission check
re-fetches authoritative stock per item rather than using cached values.
`validateCart` reads only the cached `item.stock` (the source comments
"would need to fetch latest from backend"): a cart whose single item caches
stock 10 for quantity 2 passes validation — and `createOrder` posts the
order — even when the authoritative stock (spec-modelled
`validateBeforeCheckoutSpec`, fetching 0) reports the item out of stock. -/
theorem C1_counterexample :
    (validateCart [⟨1, none, "Wig", 100, none, 2, some 10⟩]).1 = true ∧
    (validateBeforeCheckoutSpec [⟨1, none, "Wig", 100, none, 2, some 10⟩]
      (fun _ => 0)).1 = false ∧
    (createOrder [⟨1, none, "Wig", 100, none, 2, some 10⟩] []
      ⟨"standard", "payfast", true, 0, ""⟩ ⟨true, some 1, none⟩).posted
      = true := by
  refine ⟨by decide, by decide, by decide⟩

/-- Claim C1 (amended): `createOrder` with an empty cart never issues the
order POST and fails validation with the empty-cart issue; when some cart
item's *cached* stock is below its quantity, `createOrder` halts before
posting and the returned validation issues name the specific item and its
available count.  (The pre-submission check uses the stock cached on each
cart line; it does not re-fetch authoritative stock.) -/
theorem C1_checkout_gating_amended (cart : List CartItem)
    (shippingErrs : List String) (cd : CheckoutData)
    (resp : OrdersApiResponse) :
    (cart = [] →
      (createOrder cart shippingErrs cd resp).posted = false ∧
      (createOrder cart shippingErrs cd resp).result =
        .validationFailed (validateCheckout cart shippingErrs cd).2 ∧
      CheckoutIssue.cartIssue .emptyCart ∈
        (validateCheckout cart shippingErrs cd).2) ∧
    (∀ item s, item ∈ cart → item.stock = some s → s < item.quantity →
      (createOrder cart shippingErrs cd resp).posted = false ∧
      (createOrder cart shippingErrs cd resp).result =
        .validationFailed (validateCheckout cart shippingErrs cd).2 ∧
      CheckoutIssue.cartIssue (.insufficientStockFor item.name s) ∈
        (validateCheckout cart shippingErrs cd).2) := by
  constructor
  · rintro rfl
    have hmem : CheckoutIssue.cartIssue .emptyCart ∈
        (validateCheckout [] shippingErrs cd).2 := by
      simp [validateCheckout, validateCart]
    have hfalse : (validateCheckout [] shippingErrs cd).1 = false := by
      have : (validateCheckout [] shippingErrs cd).2 ≠ [] := by
        intro hnil
        rw [hnil] at hmem
        simp at hmem
      show ((validateCheckout [] shippingErrs cd).2).isEmpty = false
      simpa [List.isEmpty_iff] using this
    exact ⟨by simp [createOrder, hfalse], by simp [createOrder, hfalse], hmem⟩
  · intro item s hitem hstock hlt
    have hissue : CartIssue.insufficientStockFor item.name s ∈
        itemIssues item := by
      refine List.mem_append_right _ ?_
      simp [hstock, hlt]
    have hcartmem : CartIssue.insufficientStockFor item.name s ∈
        (validateCart cart).2 := by
      have hne : cart.isEmpty = false := by
        cases cart with
        | nil => simp at hitem
        | cons a l => rfl
      simp only [validateCart, hne, Bool.false_eq_true, if_false]
      exact List.mem_flatten.mpr ⟨itemIssues item,
        List.mem_map.mpr ⟨item, hitem, rfl⟩, hissue⟩
    have hmem : CheckoutIssue.cartIssue (.insufficientStockFor item.name s) ∈
        (validateCheckout cart shippingErrs cd).2 := by
      unfold validateCheckout
      exact List.mem_append_left _ (List.mem_append_left _
        (List.mem_append_left _ (List.mem_append_left _
          (List.mem_map.mpr ⟨_, hcartmem, rfl⟩))))
    have hfalse : (validateCheckout cart shippingErrs cd).1 = false := by
      have : (validateCheckout cart shippingErrs cd).2 ≠ [] := by
        intro hnil
        rw [hnil] at hmem
        simp at hmem
      show ((validateCheckout cart shippingErrs cd).2).isEmpty = false
      simpa [List.isEmpty_iff] using this
    exact ⟨by simp [createOrder, hfalse], by simp [createOrder, hfalse], hmem⟩

/-- Claim C1 witness: a single-line cart whose cached stock 2 is below its
quantity 5 blocks the POST and reports that line's issue. -/
theorem C1_witness :
    (⟨1, none, "Wig", 100, none, 5, some 2⟩ : CartItem) ∈
      [(⟨1, none, "Wig", 100, none, 5, some 2⟩ : CartItem)] ∧
    (⟨1, none, "Wig", 100, none, 5, some 2⟩ : CartItem).stock = some 2 ∧
    (2 : Int) < 5 ∧
    (createOrder [⟨1, none, "Wig", 100, none, 5, some 2⟩] []
      ⟨"standard", "payfast", true, 0, ""⟩ ⟨true, some 1, none⟩).posted
      = false :=
  ⟨by decide, rfl, by decide,
    ((C1_checkout_gating_amended [⟨1, none, "Wig", 100, none, 5, some 2⟩] []
        ⟨"standard", "payfast", true, 0, ""⟩ ⟨true, some 1, none⟩).2
      ⟨1, none, "Wig", 100, none, 5, some 2⟩ 2 (by decide) rfl
      (by decide)).1⟩
